import Mathlib

/-!
Shallow embedding of `src/main.py`, the Streamlit athlete nutrition
tracker (food-diary and weight-registration forms backed by MongoDB).

Modelling choices:
* Streamlit session state (`st.session_state.food_items`,
  `st.session_state.preserve_player_id`) becomes the explicit record
  `SessionState`, threaded through the operations.
* The database environment is abstracted by `PersistOutcome`
  (connection succeeds and the insert succeeds / `connect_to_mongodb`
  returns `None` / `insert_one` raises).  An insert that raises is
  modelled as persisting nothing, matching the code's error path which
  records no document.  The documents an operation inserts are returned
  as an explicit list.
* Python floats carry no arithmetic here (they are only compared with
  0), so `float` fields are embedded as `ℚ`.
* `datetime.date` values are embedded as a `Date` record of numerals
  with the validity predicate Python's `date` enforces;
  `int(d.strftime("%Y%m%d"))` is the decimal value
  `year * 10000 + month * 100 + day` for the four-digit years in play.
* `time.strftime("%H:%M")` is embedded by `TimeOfDay.strfHM`, with
  two-digit zero padding via `pad2`.
* Python's `str.strip` is embedded by `pyStrip`, dropping Python's
  whitespace characters from both ends of the string.
-/

/-- The characters Python's `str.strip` removes by default. -/
def isPySpace (c : Char) : Bool :=
  c == ' ' || c == '\t' || c == '\n' || c == '\r' || c == '\x0b' || c == '\x0c'

/-- Embeds Python's `str.strip()`: drops leading and trailing whitespace. -/
def pyStrip (s : String) : String :=
  ⟨((s.data.dropWhile isPySpace).reverse.dropWhile isPySpace).reverse⟩

/-- Zero-pads a natural number to two decimal digits, modelling the `%H`,
`%M` fields of Python's `strftime`. -/
def pad2 (n : Nat) : String :=
  if n < 10 then "0" ++ toString n else toString n

/-- A time of day as Python's `datetime.time` carries it (hour, minute). -/
structure TimeOfDay where
  hour : Nat
  minute : Nat
  deriving DecidableEq

/-- Embeds `time.strftime("%H:%M")` from `validate_and_add_food_item`. -/
def TimeOfDay.strfHM (t : TimeOfDay) : String :=
  pad2 t.hour ++ ":" ++ pad2 t.minute

/-- A calendar date as Python's `datetime.date` carries it. -/
@[ext]
structure Date where
  year : Nat
  month : Nat
  day : Nat
  deriving DecidableEq

/-- Gregorian leap-year rule, as enforced by Python's `datetime.date`. -/
def isLeapYear (y : Nat) : Bool :=
  (y % 4 == 0 && y % 100 != 0) || y % 400 == 0

/-- Number of days of month `m` of year `y` (Gregorian). -/
def daysInMonth (y m : Nat) : Nat :=
  if m = 2 then (if isLeapYear y then 29 else 28)
  else if m = 4 ∨ m = 6 ∨ m = 9 ∨ m = 11 then 30
  else 31

/-- Validity of a `Date`: exactly the invariant Python's `datetime.date`
constructor enforces on month and day. -/
def Date.valid (d : Date) : Prop :=
  1 ≤ d.month ∧ d.month ≤ 12 ∧ 1 ≤ d.day ∧ d.day ≤ daysInMonth d.year d.month

instance (d : Date) : Decidable d.valid := by
  unfold Date.valid; infer_instance

/-- Embeds `int(d.strftime("%Y%m%d"))`, the date encoding used by
`MealEntry.to_dict` and `WeightEntry.to_dict`: for a four-digit year the
decimal string `YYYYMMDD` reads back as this number. -/
def encodeYYYYMMDD (d : Date) : Nat :=
  d.year * 10000 + d.month * 100 + d.day

/-- Recovers the calendar date from its `YYYYMMDD` integer encoding. -/
def decodeYYYYMMDD (n : Nat) : Date :=
  ⟨n / 10000, n / 100 % 100, n % 100⟩

/-- Embeds the `FoodItem` class of `src/main.py`. -/
structure FoodItem where
  time : String
  food_product : String
  amount_value : ℚ
  amount_unit : String
  deriving DecidableEq

/-- The dictionary produced by `FoodItem.to_dict`. -/
structure FoodItemDict where
  time : String
  food_product : String
  amount_value : ℚ
  amount_unit : String
  deriving DecidableEq

/-- Embeds `FoodItem.to_dict`. -/
def FoodItem.to_dict (i : FoodItem) : FoodItemDict :=
  ⟨i.time, i.food_product, i.amount_value, i.amount_unit⟩

/-- Embeds the `MealEntry` class of `src/main.py`. -/
structure MealEntry where
  player_id : String
  meal_date : Date
  day_type : String
  meal_type : String
  food_items : List FoodItem
  deriving DecidableEq

/-- The document produced by `MealEntry.to_dict` and inserted into the
`meal_diary_entries` collection. -/
structure MealDict where
  player_id : String
  meal_date : Nat
  day_type : String
  meal_type : String
  meal_elements : List FoodItemDict
  deriving DecidableEq

/-- Embeds `MealEntry.to_dict`. -/
def MealEntry.to_dict (e : MealEntry) : MealDict :=
  ⟨e.player_id, encodeYYYYMMDD e.meal_date, e.day_type, e.meal_type,
    e.food_items.map FoodItem.to_dict⟩

/-- Embeds the `WeightEntry` class of `src/main.py`. -/
structure WeightEntry where
  player_id : String
  registration_date : Date
  day_type : String
  weight_before : ℚ
  weight_after : ℚ
  deriving DecidableEq

/-- The document produced by `WeightEntry.to_dict` and inserted into the
`weight_registration` collection. -/
structure WeightDict where
  player_id : String
  registration_date : Nat
  day_type : String
  weight_before : ℚ
  weight_after : ℚ
  deriving DecidableEq

/-- Embeds `WeightEntry.to_dict`. -/
def WeightEntry.to_dict (e : WeightEntry) : WeightDict :=
  ⟨e.player_id, encodeYYYYMMDD e.registration_date, e.day_type,
    e.weight_before, e.weight_after⟩

/-- The per-session mutable state set up by `initialize_session_state`:
the pending food-item list and the remembered player id. -/
structure SessionState where
  food_items : List FoodItem
  preserve_player_id : Option String
  deriving DecidableEq

/-- The state `initialize_session_state` creates on a fresh session. -/
def SessionState.initial : SessionState := ⟨[], none⟩

/-- Outcome of `validate_and_add_food_item`: a `st.warning` message, or
acceptance (`st.success`). -/
inductive AddResult where
  | warning (msg : String)
  | added
  deriving DecidableEq

/-- Result and post-state of one `validate_and_add_food_item` call. -/
structure AddOutcome where
  result : AddResult
  state : SessionState
  deriving DecidableEq

/-- Embeds `validate_and_add_food_item(time, food_product, amount_value,
amount_unit)`: rejects an empty/whitespace-only product name, then a
non-positive amount; otherwise appends the normalised item (product
stripped, time formatted `HH:MM`) to the pending list. -/
def validate_and_add_food_item (t : TimeOfDay) (food_product : String)
    (amount_value : ℚ) (amount_unit : String) (s : SessionState) : AddOutcome :=
  if pyStrip food_product = "" then
    ⟨.warning "Food element cannot be empty.", s⟩
  else if amount_value ≤ 0 then
    ⟨.warning "Amount has to be larger than 0.", s⟩
  else
    ⟨.added,
      { s with
        food_items := s.food_items ++
          [⟨t.strfHM, pyStrip food_product, amount_value, amount_unit⟩] }⟩

/-- Behaviour of the database during one submission: the connection and
insert both succeed, `connect_to_mongodb` returns `None`, or
`insert_one` raises. -/
inductive PersistOutcome where
  | success
  | connectionFailed
  | insertRaised
  deriving DecidableEq

/-- Outcome of a submission: the validation error surfaced via
`st.error` before any database work, the persistence error surfaced
from the `except` block, or success. -/
inductive SubmitResult where
  | validationError (msg : String)
  | persistenceError (msg : String)
  | ok
  deriving DecidableEq

/-- Result, post-state and inserted documents of one `submit_meal_entry`
call. -/
structure MealSubmitOutcome where
  result : SubmitResult
  state : SessionState
  inserted : List MealDict
  deriving DecidableEq

/-- Embeds `submit_meal_entry(player_id, meal_date, day_type, meal_type)`
acting on the session state: empty pending list is rejected up front;
otherwise the `MealEntry` document is inserted, the pending list is
cleared and the player id remembered; any failure lands in the `except`
block, which only surfaces an error message. -/
def submit_meal_entry (po : PersistOutcome) (player_id : String)
    (meal_date : Date) (day_type : String) (meal_type : String)
    (s : SessionState) : MealSubmitOutcome :=
  if s.food_items = [] then
    ⟨.validationError "You must include at least one food element.", s, []⟩
  else
    match po with
    | .connectionFailed =>
        ⟨.persistenceError "Failed to save your meal. Please try again.", s, []⟩
    | .insertRaised =>
        ⟨.persistenceError "Failed to save your meal. Please try again.", s, []⟩
    | .success =>
        ⟨.ok, ⟨[], some player_id⟩,
          [(MealEntry.mk player_id meal_date day_type meal_type
              s.food_items).to_dict]⟩

/-- Result, post-state and inserted documents of one
`submit_weight_entry` call. -/
structure WeightSubmitOutcome where
  result : SubmitResult
  state : SessionState
  inserted : List WeightDict
  deriving DecidableEq

/-- Embeds `submit_weight_entry(player_id, registration_date, day_type,
weight_before, weight_after)`: non-positive weights are rejected up
front; otherwise the `WeightEntry` document is inserted and the player
id remembered (the pending food-item list is not touched). -/
def submit_weight_entry (po : PersistOutcome) (player_id : String)
    (registration_date : Date) (day_type : String)
    (weight_before weight_after : ℚ) (s : SessionState) : WeightSubmitOutcome :=
  if weight_before ≤ 0 ∨ weight_after ≤ 0 then
    ⟨.validationError "Weight values must be positive numbers.", s, []⟩
  else
    match po with
    | .connectionFailed =>
        ⟨.persistenceError
            "Failed to save your weight registration. Please try again.", s, []⟩
    | .insertRaised =>
        ⟨.persistenceError
            "Failed to save your weight registration. Please try again.", s, []⟩
    | .success =>
        ⟨.ok, ⟨s.food_items, some player_id⟩,
          [(WeightEntry.mk player_id registration_date day_type
              weight_before weight_after).to_dict]⟩

/-- Behaviour of the roster collection during `get_player_ids`: the
connection fails, the `player_id` projection field is absent (pandas
`KeyError`), or the ids are returned. -/
inductive RosterEnv where
  | connFail
  | fieldMissing
  | ok (ids : List String)
  deriving DecidableEq

/-- The body of the `try` block of `get_player_ids`: the error carried by
the exception, or the projected player ids. -/
def get_player_ids_raw : RosterEnv → Except String (List String)
  | .connFail => .error "Could not connect to MongoDB"
  | .fieldMissing => .error "player_id"
  | .ok ids => .ok ids

/-- Embeds `get_player_ids`: any exception is caught and an empty
sequence returned so the app does not crash. -/
def get_player_ids (env : RosterEnv) : List String :=
  match get_player_ids_raw env with
  | .error _ => []
  | .ok ids => ids

/-- Embeds the `index=` computation of the player selectbox: the
position of the remembered player id when it occurs in the roster,
otherwise no pre-selection. -/
def preselect_index (ids : List String) : Option String → Option Nat
  | some p => if p ∈ ids then some (ids.indexOf p) else none
  | none => none

/-- Outcome of rendering the food-diary tab: the early return with a
`st.warning` when no player data is available, or the rendered form
with its roster options and pre-selected index. -/
inductive RenderOutcome where
  | noData (warning : String)
  | form (ids : List String) (preselect : Option Nat)
  deriving DecidableEq

/-- Embeds the roster-dependent head of `render_food_diary_tab`: fetch
the player ids, return early with a warning when empty, otherwise render
the selectbox pre-selected from `preserve_player_id`. -/
def render_food_diary_tab (env : RosterEnv) (s : SessionState) : RenderOutcome :=
  let ids := get_player_ids env
  if ids.isEmpty then
    .noData "No player data available. Please check database connection."
  else
    .form ids (preselect_index ids s.preserve_player_id)

/-- Every month has at most 31 days. -/
theorem daysInMonth_le_31 (y m : Nat) : daysInMonth y m ≤ 31 := by
  unfold daysInMonth
  split
  · split <;> omega
  · split <;> omega

/-- A two-digit zero-padded rendering always has length two. -/
theorem pad2_length : ∀ n, n < 100 → (pad2 n).length = 2 := by decide

/-- C1: `submit_meal_entry` with an empty pending food-item list fails
with the validation error asking for at least one food element, inserts
nothing into the meal-entries collection, and leaves the pending list
and the remembered player id unchanged. -/
theorem submit_meal_empty_pending_rejects
    (po : PersistOutcome) (pid : String) (d : Date) (dt mt : String)
    (s : SessionState) (h : s.food_items = []) :
    (submit_meal_entry po pid d dt mt s).result =
        .validationError "You must include at least one food element." ∧
      (submit_meal_entry po pid d dt mt s).state = s ∧
      (submit_meal_entry po pid d dt mt s).inserted = [] := by
  unfold submit_meal_entry
  rw [if_pos h]
  exact ⟨rfl, rfl, rfl⟩

/-- Witness for C1 at a concrete empty session. -/
theorem submit_meal_empty_pending_rejects_witness :
    (SessionState.mk [] none).food_items = [] ∧
      ((submit_meal_entry .success "P1" ⟨2024, 5, 1⟩ "Training" "Breakfast"
            (SessionState.mk [] none)).result =
          .validationError "You must include at least one food element." ∧
        (submit_meal_entry .success "P1" ⟨2024, 5, 1⟩ "Training" "Breakfast"
            (SessionState.mk [] none)).state = SessionState.mk [] none ∧
        (submit_meal_entry .success "P1" ⟨2024, 5, 1⟩ "Training" "Breakfast"
            (SessionState.mk [] none)).inserted = []) :=
  ⟨rfl, submit_meal_empty_pending_rejects .success "P1" ⟨2024, 5, 1⟩
    "Training" "Breakfast" (SessionState.mk [] none) rfl⟩

/-- C2: `validate_and_add_food_item` rejects a candidate whose product
name strips to the empty string, and a candidate whose amount is not
positive, with a warning and without mutating the session state. -/
theorem validate_and_add_rejects_invalid
    (t : TimeOfDay) (food_product : String) (amount_value : ℚ)
    (amount_unit : String) (s : SessionState)
    (h : pyStrip food_product = "" ∨ amount_value ≤ 0) :
    (∃ m, (validate_and_add_food_item t food_product amount_value
        amount_unit s).result = .warning m) ∧
      (validate_and_add_food_item t food_product amount_value
        amount_unit s).state = s := by
  unfold validate_and_add_food_item
  rcases h with h | h
  · rw [if_pos h]
    exact ⟨⟨_, rfl⟩, rfl⟩
  · by_cases hp : pyStrip food_product = ""
    · rw [if_pos hp]
      exact ⟨⟨_, rfl⟩, rfl⟩
    · rw [if_neg hp, if_pos h]
      exact ⟨⟨_, rfl⟩, rfl⟩

/-- Witness for C2 at a whitespace-only product name. -/
theorem validate_and_add_rejects_invalid_witness :
    ((pyStrip "   " = "" ∨ (5 : ℚ) ≤ 0)) ∧
      ((∃ m, (validate_and_add_food_item ⟨8, 0⟩ "   " 5 "gr"
          (SessionState.mk [] none)).result = .warning m) ∧
        (validate_and_add_food_item ⟨8, 0⟩ "   " 5 "gr"
          (SessionState.mk [] none)).state = SessionState.mk [] none) :=
  ⟨Or.inl (by decide),
    validate_and_add_rejects_invalid ⟨8, 0⟩ "   " 5 "gr"
      (SessionState.mk [] none) (Or.inl (by decide))⟩

/-- C3: for a product name that is not whitespace-only and a positive
amount, `validate_and_add_food_item` succeeds and appends exactly one
item at the end of the pending list — product trimmed, time rendered as
the zero-padded five-character `HH:MM` string — leaving the previously
pending items and the remembered player id unchanged. -/
theorem validate_and_add_appends_normalized
    (t : TimeOfDay) (food_product : String) (amount_value : ℚ)
    (amount_unit : String) (s : SessionState)
    (hp : pyStrip food_product ≠ "") (ha : 0 < amount_value)
    (hh : t.hour < 24) (hm : t.minute < 60) :
    (validate_and_add_food_item t food_product amount_value
        amount_unit s).result = .added ∧
      (validate_and_add_food_item t food_product amount_value
          amount_unit s).state.food_items =
        s.food_items ++
          [⟨t.strfHM, pyStrip food_product, amount_value, amount_unit⟩] ∧
      (validate_and_add_food_item t food_product amount_value
          amount_unit s).state.preserve_player_id = s.preserve_player_id ∧
      t.strfHM = pad2 t.hour ++ ":" ++ pad2 t.minute ∧
      t.strfHM.length = 5 := by
  have ha' : ¬ amount_value ≤ 0 := not_le.mpr ha
  unfold validate_and_add_food_item
  rw [if_neg hp, if_neg ha']
  refine ⟨rfl, rfl, rfl, rfl, ?_⟩
  have h1 : (pad2 t.hour).length = 2 := pad2_length _ (by omega)
  have h2 : (pad2 t.minute).length = 2 := pad2_length _ (by omega)
  rw [TimeOfDay.strfHM, String.length_append, String.length_append, h1, h2]
  rfl

/-- Witness for C3 at a concrete candidate with surrounding whitespace. -/
theorem validate_and_add_appends_normalized_witness :
    (pyStrip " oatmeal " ≠ "" ∧ (0 : ℚ) < 200 ∧ 8 < 24 ∧ 0 < 60) ∧
      ((validate_and_add_food_item ⟨8, 0⟩ " oatmeal " 200 "gr"
          (SessionState.mk [] (some "P1"))).result = .added ∧
        (validate_and_add_food_item ⟨8, 0⟩ " oatmeal " 200 "gr"
            (SessionState.mk [] (some "P1"))).state.food_items =
          [] ++ [⟨TimeOfDay.strfHM ⟨8, 0⟩, pyStrip " oatmeal ", 200, "gr"⟩] ∧
        (validate_and_add_food_item ⟨8, 0⟩ " oatmeal " 200 "gr"
            (SessionState.mk [] (some "P1"))).state.preserve_player_id =
          some "P1" ∧
        TimeOfDay.strfHM ⟨8, 0⟩ = pad2 8 ++ ":" ++ pad2 0 ∧
        (TimeOfDay.strfHM ⟨8, 0⟩).length = 5) :=
  ⟨⟨by decide, by norm_num, by decide, by decide⟩,
    validate_and_add_appends_normalized ⟨8, 0⟩ " oatmeal " 200 "gr"
      (SessionState.mk [] (some "P1")) (by decide) (by norm_num)
      (by decide) (by decide)⟩

/-- C4: a successful `submit_meal_entry` inserts exactly the one
`MealEntry` document built from the submitted data and pending items,
empties the pending list, and remembers the submitted player id. -/
theorem submit_meal_success_effects
    (pid : String) (d : Date) (dt mt : String) (s : SessionState)
    (h : s.food_items ≠ []) :
    (submit_meal_entry .success pid d dt mt s).result = .ok ∧
      (submit_meal_entry .success pid d dt mt s).inserted =
        [(MealEntry.mk pid d dt mt s.food_items).to_dict] ∧
      (submit_meal_entry .success pid d dt mt s).inserted.length = 1 ∧
      (submit_meal_entry .success pid d dt mt s).state.food_items = [] ∧
      (submit_meal_entry .success pid d dt mt s).state.preserve_player_id =
        some pid := by
  unfold submit_meal_entry
  rw [if_neg h]
  exact ⟨rfl, rfl, rfl, rfl, rfl⟩

/-- Witness for C4 at a one-item pending list. -/
theorem submit_meal_success_effects_witness :
    (SessionState.mk [⟨"08:00", "oatmeal", 200, "gr"⟩] none).food_items ≠ [] ∧
      ((submit_meal_entry .success "P1" ⟨2024, 5, 1⟩ "Training" "Breakfast"
            (SessionState.mk [⟨"08:00", "oatmeal", 200, "gr"⟩] none)).result =
          .ok ∧
        (submit_meal_entry .success "P1" ⟨2024, 5, 1⟩ "Training" "Breakfast"
            (SessionState.mk [⟨"08:00", "oatmeal", 200, "gr"⟩] none)).inserted =
          [(MealEntry.mk "P1" ⟨2024, 5, 1⟩ "Training" "Breakfast"
              [⟨"08:00", "oatmeal", 200, "gr"⟩]).to_dict] ∧
        (submit_meal_entry .success "P1" ⟨2024, 5, 1⟩ "Training" "Breakfast"
            (SessionState.mk [⟨"08:00", "oatmeal", 200, "gr"⟩]
              none)).inserted.length = 1 ∧
        (submit_meal_entry .success "P1" ⟨2024, 5, 1⟩ "Training" "Breakfast"
            (SessionState.mk [⟨"08:00", "oatmeal", 200, "gr"⟩]
              none)).state.food_items = [] ∧
        (submit_meal_entry .success "P1" ⟨2024, 5, 1⟩ "Training" "Breakfast"
            (SessionState.mk [⟨"08:00", "oatmeal", 200, "gr"⟩]
              none)).state.preserve_player_id = some "P1") :=
  ⟨by decide,
    submit_meal_success_effects "P1" ⟨2024, 5, 1⟩ "Training" "Breakfast"
      (SessionState.mk [⟨"08:00", "oatmeal", 200, "gr"⟩] none) (by decide)⟩

/-- C5: `submit_weight_entry` with a non-positive weight (in particular
a zero weight) fails with the validation error, inserts nothing into the
weight-registration collection, and leaves the session state unchanged. -/
theorem submit_weight_nonpositive_rejects
    (po : PersistOutcome) (pid : String) (d : Date) (dt : String)
    (wb wa : ℚ) (s : SessionState) (h : wb ≤ 0 ∨ wa ≤ 0) :
    (submit_weight_entry po pid d dt wb wa s).result =
        .validationError "Weight values must be positive numbers." ∧
      (submit_weight_entry po pid d dt wb wa s).state = s ∧
      (submit_weight_entry po pid d dt wb wa s).inserted = [] := by
  unfold submit_weight_entry
  rw [if_pos h]
  exact ⟨rfl, rfl, rfl⟩

/-- Witness for C5 at weight-before zero. -/
theorem submit_weight_nonpositive_rejects_witness :
    ((0 : ℚ) ≤ 0 ∨ (70 : ℚ) ≤ 0) ∧
      ((submit_weight_entry .success "P2" ⟨2024, 5, 2⟩ "Wedstrijd" 0 70
            (SessionState.mk [] none)).result =
          .validationError "Weight values must be positive numbers." ∧
        (submit_weight_entry .success "P2" ⟨2024, 5, 2⟩ "Wedstrijd" 0 70
            (SessionState.mk [] none)).state = SessionState.mk [] none ∧
        (submit_weight_entry .success "P2" ⟨2024, 5, 2⟩ "Wedstrijd" 0 70
            (SessionState.mk [] none)).inserted = []) :=
  ⟨Or.inl (by norm_num),
    submit_weight_nonpositive_rejects .success "P2" ⟨2024, 5, 2⟩ "Wedstrijd"
      0 70 (SessionState.mk [] none) (Or.inl (by norm_num))⟩

/-- C6: the date encoding shared by `MealEntry.to_dict` and
`WeightEntry.to_dict` is the pure function (Y, M, D) ↦
Y * 10000 + M * 100 + D, it round-trips losslessly through
`decodeYYYYMMDD`, and it is injective on valid calendar dates: two valid
dates with the same encoding are equal. -/
theorem date_encoding_roundtrip_injective
    (d1 d2 : Date) (e : MealEntry) (w : WeightEntry)
    (h1 : d1.valid) (h2 : d2.valid) (hy : 1900 ≤ d1.year)
    (heq : encodeYYYYMMDD d1 = encodeYYYYMMDD d2) :
    encodeYYYYMMDD d1 = d1.year * 10000 + d1.month * 100 + d1.day ∧
      decodeYYYYMMDD (encodeYYYYMMDD d1) = d1 ∧
      d1 = d2 ∧
      e.to_dict.meal_date = encodeYYYYMMDD e.meal_date ∧
      w.to_dict.registration_date = encodeYYYYMMDD w.registration_date := by
  obtain ⟨m1a, m1b, d1a, d1b⟩ := h1
  obtain ⟨m2a, m2b, d2a, d2b⟩ := h2
  have hd1 : d1.day ≤ 31 := le_trans d1b (daysInMonth_le_31 _ _)
  have hd2 : d2.day ≤ 31 := le_trans d2b (daysInMonth_le_31 _ _)
  refine ⟨rfl, ?_, ?_, rfl, rfl⟩
  · apply Date.ext <;> dsimp only [decodeYYYYMMDD, encodeYYYYMMDD] <;> omega
  · dsimp only [encodeYYYYMMDD] at heq
    apply Date.ext <;> omega

/-- Witness for C6 at the date 2024-05-01. -/
theorem date_encoding_roundtrip_injective_witness :
    ((Date.mk 2024 5 1).valid ∧ (Date.mk 2024 5 1).valid ∧
        1900 ≤ (Date.mk 2024 5 1).year ∧
        encodeYYYYMMDD ⟨2024, 5, 1⟩ = encodeYYYYMMDD ⟨2024, 5, 1⟩) ∧
      (encodeYYYYMMDD ⟨2024, 5, 1⟩ =
          (Date.mk 2024 5 1).year * 10000 + (Date.mk 2024 5 1).month * 100 +
            (Date.mk 2024 5 1).day ∧
        decodeYYYYMMDD (encodeYYYYMMDD ⟨2024, 5, 1⟩) = Date.mk 2024 5 1 ∧
        Date.mk 2024 5 1 = Date.mk 2024 5 1 ∧
        (MealEntry.mk "P1" ⟨2024, 5, 1⟩ "Training" "Breakfast"
              []).to_dict.meal_date =
          encodeYYYYMMDD (MealEntry.mk "P1" ⟨2024, 5, 1⟩ "Training"
              "Breakfast" []).meal_date ∧
        (WeightEntry.mk "P2" ⟨2024, 5, 2⟩ "Wedstrijd" 70
              69).to_dict.registration_date =
          encodeYYYYMMDD (WeightEntry.mk "P2" ⟨2024, 5, 2⟩ "Wedstrijd" 70
              69).registration_date) :=
  ⟨⟨by decide, by decide, by decide, rfl⟩,
    date_encoding_roundtrip_injective ⟨2024, 5, 1⟩ ⟨2024, 5, 1⟩
      (MealEntry.mk "P1" ⟨2024, 5, 1⟩ "Training" "Breakfast" [])
      (WeightEntry.mk "P2" ⟨2024, 5, 2⟩ "Wedstrijd" 70 69)
      (by decide) (by decide) (by decide) rfl⟩

/-- C7: when the pending list is non-empty and persistence fails —
either the connection is unavailable or the insert raises —
`submit_meal_entry` reports the persistence error, inserts nothing, and
leaves the session state (in particular the pending list) exactly as it
was. -/
theorem submit_meal_persistence_failure_atomic
    (po : PersistOutcome) (pid : String) (d : Date) (dt mt : String)
    (s : SessionState) (h : s.food_items ≠ []) (hpo : po ≠ .success) :
    (submit_meal_entry po pid d dt mt s).result =
        .persistenceError "Failed to save your meal. Please try again." ∧
      (submit_meal_entry po pid d dt mt s).state = s ∧
      (submit_meal_entry po pid d dt mt s).inserted = [] := by
  unfold submit_meal_entry
  rw [if_neg h]
  cases po with
  | success => exact absurd rfl hpo
  | connectionFailed => exact ⟨rfl, rfl, rfl⟩
  | insertRaised => exact ⟨rfl, rfl, rfl⟩

/-- Witness for C7 at a failed connection with one pending item. -/
theorem submit_meal_persistence_failure_atomic_witness :
    ((SessionState.mk [⟨"08:00", "oatmeal", 200, "gr"⟩]
          (some "P1")).food_items ≠ [] ∧
        PersistOutcome.connectionFailed ≠ PersistOutcome.success) ∧
      ((submit_meal_entry .connectionFailed "P1" ⟨2024, 5, 1⟩ "Training"
            "Breakfast"
            (SessionState.mk [⟨"08:00", "oatmeal", 200, "gr"⟩]
              (some "P1"))).result =
          .persistenceError "Failed to save your meal. Please try again." ∧
        (submit_meal_entry .connectionFailed "P1" ⟨2024, 5, 1⟩ "Training"
            "Breakfast"
            (SessionState.mk [⟨"08:00", "oatmeal", 200, "gr"⟩]
              (some "P1"))).state =
          SessionState.mk [⟨"08:00", "oatmeal", 200, "gr"⟩] (some "P1") ∧
        (submit_meal_entry .connectionFailed "P1" ⟨2024, 5, 1⟩ "Training"
            "Breakfast"
            (SessionState.mk [⟨"08:00", "oatmeal", 200, "gr"⟩]
              (some "P1"))).inserted = []) :=
  ⟨⟨by decide, by decide⟩,
    submit_meal_persistence_failure_atomic .connectionFailed "P1"
      ⟨2024, 5, 1⟩ "Training" "Breakfast"
      (SessionState.mk [⟨"08:00", "oatmeal", 200, "gr"⟩] (some "P1"))
      (by decide) (by decide)⟩

/-- C8: adding (08:00, "oatmeal", 200, "gr") and (08:05, "milk", 150,
"ml") to an empty pending list and submitting with player "P1", date
2024-05-01, day type "Training", meal type "Breakfast" inserts exactly
the expected document, with the items in insertion order, and empties
the pending list. -/
theorem meal_flow_concrete_example :
    (submit_meal_entry .success "P1" ⟨2024, 5, 1⟩ "Training" "Breakfast"
        ((validate_and_add_food_item ⟨8, 5⟩ "milk" 150 "ml"
          ((validate_and_add_food_item ⟨8, 0⟩ "oatmeal" 200 "gr"
            SessionState.initial).state)).state)).inserted =
      [⟨"P1", 20240501, "Training", "Breakfast",
        [⟨"08:00", "oatmeal", 200, "gr"⟩, ⟨"08:05", "milk", 150, "ml"⟩]⟩] ∧
    (submit_meal_entry .success "P1" ⟨2024, 5, 1⟩ "Training" "Breakfast"
        ((validate_and_add_food_item ⟨8, 5⟩ "milk" 150 "ml"
          ((validate_and_add_food_item ⟨8, 0⟩ "oatmeal" 200 "gr"
            SessionState.initial).state)).state)).state.food_items = [] := by
  exact ⟨by decide, by decide⟩

/-- C9: when the roster connection cannot be established or the
`player_id` projection field is absent, the lookup's inner body fails
with an error, `get_player_ids` returns the empty sequence, and the
food-diary form rendering returns early with the no-data warning instead
of propagating an exception. -/
theorem roster_failure_disables_form
    (env : RosterEnv) (s : SessionState)
    (h : env = .connFail ∨ env = .fieldMissing) :
    (∃ msg, get_player_ids_raw env = .error msg) ∧
      get_player_ids env = [] ∧
      render_food_diary_tab env s =
        .noData "No player data available. Please check database connection." := by
  rcases h with h | h <;> subst h <;> exact ⟨⟨_, rfl⟩, rfl, rfl⟩

/-- Witness for C9 at a failed roster connection. -/
theorem roster_failure_disables_form_witness :
    (RosterEnv.connFail = RosterEnv.connFail ∨
        RosterEnv.connFail = RosterEnv.fieldMissing) ∧
      ((∃ msg, get_player_ids_raw .connFail = .error msg) ∧
        get_player_ids .connFail = [] ∧
        render_food_diary_tab .connFail SessionState.initial =
          .noData
            "No player data available. Please check database connection.") :=
  ⟨Or.inl rfl,
    roster_failure_disables_form .connFail SessionState.initial (Or.inl rfl)⟩

/-- C10: a successful `submit_weight_entry` leaves the meal flow's
pending food-item list unchanged, but writes the shared
`preserve_player_id` session variable, so the food-diary form rendered
afterwards pre-selects the player id submitted on the weight form. -/
theorem submit_weight_shares_preserved_player
    (pid : String) (d : Date) (dt : String) (wb wa : ℚ) (s : SessionState)
    (ids : List String)
    (hb : 0 < wb) (ha : 0 < wa) (hmem : pid ∈ ids) :
    (submit_weight_entry .success pid d dt wb wa s).result = .ok ∧
      (submit_weight_entry .success pid d dt wb wa s).state.food_items =
        s.food_items ∧
      (submit_weight_entry .success pid d dt wb wa s).state.preserve_player_id =
        some pid ∧
      preselect_index ids
          (submit_weight_entry .success pid d dt wb wa s).state.preserve_player_id =
        some (ids.indexOf pid) ∧
      render_food_diary_tab (.ok ids)
          (submit_weight_entry .success pid d dt wb wa s).state =
        .form ids (some (ids.indexOf pid)) := by
  have hcond : ¬ (wb ≤ 0 ∨ wa ≤ 0) := by
    push_neg
    exact ⟨hb, ha⟩
  have hne : ids ≠ [] := List.ne_nil_of_mem hmem
  unfold submit_weight_entry
  rw [if_neg hcond]
  refine ⟨rfl, rfl, rfl, ?_, ?_⟩
  · simp [preselect_index, hmem]
  · simp [render_food_diary_tab, get_player_ids, get_player_ids_raw,
      preselect_index, hmem, hne]

/-- Witness for C10 with player "P2" of a two-player roster. -/
theorem submit_weight_shares_preserved_player_witness :
    ((0 : ℚ) < 70 ∧ (0 : ℚ) < 69 ∧ "P2" ∈ ["P1", "P2"]) ∧
      ((submit_weight_entry .success "P2" ⟨2024, 5, 2⟩ "Wedstrijd" 70 69
            (SessionState.mk [] (some "P1"))).result = .ok ∧
        (submit_weight_entry .success "P2" ⟨2024, 5, 2⟩ "Wedstrijd" 70 69
            (SessionState.mk [] (some "P1"))).state.food_items =
          (SessionState.mk [] (some "P1")).food_items ∧
        (submit_weight_entry .success "P2" ⟨2024, 5, 2⟩ "Wedstrijd" 70 69
            (SessionState.mk [] (some "P1"))).state.preserve_player_id =
          some "P2" ∧
        preselect_index ["P1", "P2"]
            (submit_weight_entry .success "P2" ⟨2024, 5, 2⟩ "Wedstrijd" 70 69
              (SessionState.mk [] (some "P1"))).state.preserve_player_id =
          some (["P1", "P2"].indexOf "P2") ∧
        render_food_diary_tab (.ok ["P1", "P2"])
            (submit_weight_entry .success "P2" ⟨2024, 5, 2⟩ "Wedstrijd" 70 69
              (SessionState.mk [] (some "P1"))).state =
          .form ["P1", "P2"] (some (["P1", "P2"].indexOf "P2"))) :=
  ⟨⟨by norm_num, by norm_num, by decide⟩,
    submit_weight_shares_preserved_player "P2" ⟨2024, 5, 2⟩ "Wedstrijd" 70 69
      (SessionState.mk [] (some "P1")) ["P1", "P2"] (by norm_num) (by norm_num)
      (by decide)⟩
